import Mathlib

/-!
Shallow embedding of the client-side dashboard logic of the Solana RPC
performance monitor (the static dashboard script: re-entrancy-guarded
`fetchData`, leaderboard ranking in `updateLeaderboard`, per-endpoint
averaging, chart dataset construction with the session color map and the
hidden-dataset map, `updateYAxisMax`, and the legend click handler).

Modelling conventions:
* JavaScript numbers appearing as integer latencies / slot values /
  timestamps are modelled as `Int`; derived averages and the y-axis bound,
  which involve division and the factor 1.1, are modelled as `ℚ`.
* A possibly-absent (`undefined`) field or object entry is an `Option`.
* `Array.prototype.sort(cmp)` with a consistent comparator is, per the
  ECMAScript specification, a stable sort consistent with `cmp`; it is
  modelled by `List.insertionSort r` where `r a b ↔ cmp a b ≤ 0`
  (insertion sort is a stable sort, so the two agree on every input).
* DOM text mutations (`updateWithFade` targets, innerHTML strings, CSS
  classes beyond the busy indicator) are cosmetic and carry no state read
  back by the script; they are not part of the state model.  The busy
  indicator class, the status line, the rendered leaderboard rows (entry
  order plus the per-row `new-record` flag) and the chart object are
  modelled, since the claims mention them.
-/

namespace RPCMonitor

/-- One raw latency sample, as served in the fetched `data` array. -/
structure Sample where
  nickname : String
  timestamp : Int
  latency_ms : Int
  total_latency_ms : Int
deriving DecidableEq, Repr

/-- An entry of the server-supplied `latency_leaderboard` (shape used by the
`updateLeaderboard` calls for the Fastest Response Times board).  `value` and
`latency_ms` and `timestamp` may be absent (`undefined` in the source). -/
structure LBEntry where
  nickname : String
  value : Option Int
  latency_ms : Option Int
  total_latency_ms : Int
  timestamp : Option Int
deriving DecidableEq, Repr

/-- An entry of the shape consumed by the `Highest Slots` branch of
`updateLeaderboard` (all fields present, as in the spec's slot example). -/
structure SlotEntry where
  nickname : String
  value : Int
  latency_ms : Int
  total_latency_ms : Int
deriving DecidableEq, Repr

/-- An average-response-time entry as built in `fetchData`
(`{ nickname, averageLatency }`); note it has no `value` field. -/
structure AvgEntry where
  nickname : String
  averageLatency : ℚ
deriving DecidableEq, Repr

/-- A chart point `{ x: new Date(item.timestamp), y: item.latency_ms }`. -/
structure Point where
  x : Int
  y : Int
deriving DecidableEq, Repr

/-- One chart dataset.  The constant style fields of the source
(`backgroundColor`, `borderWidth: 2`, `pointRadius: 0`) are omitted: they are
fixed functions of `borderColor` and are read by nothing in the script. -/
structure Dataset where
  label : String
  data : List Point
  borderColor : String
  hidden : Bool
deriving DecidableEq, Repr

/-- The chart state the script reads and writes: the dataset list and
`options.scales.y.max`.  `yMax = none` models the `-Infinity`-valued bound
`Math.max` of no points would produce (never reached in the claims). -/
structure Chart where
  datasets : List Dataset
  yMax : Option ℚ
deriving DecidableEq, Repr

/-- The fixed six-color palette `colors`. -/
def colors : List String :=
  ["rgba(255, 99, 132, 1)",
   "rgba(54, 162, 235, 1)",
   "rgba(255, 206, 86, 1)",
   "rgba(75, 192, 192, 1)",
   "rgba(153, 102, 255, 1)",
   "rgba(255, 159, 64, 1)"]

/-! ### Ranking (`updateLeaderboard` sort branches) -/

/-- The sort key of the `Fastest Response Times` comparator:
`a.latency_ms !== undefined ? a.latency_ms : a.total_latency_ms`. -/
def fastKey (e : LBEntry) : Int :=
  match e.latency_ms with
  | some l => l
  | none => e.total_latency_ms

/-- The order `cmp a b = aLatency - bLatency ≤ 0` realised by the stable
`data.sort` of the `Fastest Response Times` branch. -/
def fastR (a b : LBEntry) : Prop := fastKey a ≤ fastKey b

instance : DecidableRel fastR := fun _ _ => inferInstanceAs (Decidable (_ ≤ _))

instance : IsTotal LBEntry fastR := ⟨fun a b => le_total (fastKey a) (fastKey b)⟩

instance : IsTrans LBEntry fastR := ⟨fun _ _ _ h h' => le_trans h h'⟩

/-- The `Fastest Response Times` branch of `updateLeaderboard`: stable sort
ascending by `latency_ms`, falling back to `total_latency_ms`. -/
def rankFastest (data : List LBEntry) : List LBEntry :=
  data.insertionSort fastR

/-- The compensation step of the `Highest Slots` branch:
`entry.latency_ms > 200 ? { ...entry, value: entry.value - 1 } : entry`. -/
def slotAdjust (entry : SlotEntry) : SlotEntry :=
  if entry.latency_ms > 200 then { entry with value := entry.value - 1 } else entry

/-- The order realised by the `Highest Slots` comparator
`(a, b) => b.value === a.value ? a.total_latency_ms - b.total_latency_ms
                               : b.value - a.value`,
read as `cmp a b ≤ 0`. -/
def slotR (a b : SlotEntry) : Prop :=
  if b.value = a.value then a.total_latency_ms ≤ b.total_latency_ms
  else b.value ≤ a.value

instance : DecidableRel slotR := fun a b => by unfold slotR; infer_instance

instance : IsTotal SlotEntry slotR := by
  constructor
  intro a b
  unfold slotR
  by_cases h : b.value = a.value
  · rw [if_pos h, if_pos h.symm]
    exact le_total _ _
  · rw [if_neg h, if_neg (fun h2 => h h2.symm)]
    exact le_total _ _

instance : IsTrans SlotEntry slotR := by
  constructor
  intro a b c hab hbc
  unfold slotR at hab hbc ⊢
  split at hab <;> split at hbc <;> split <;> omega

/-- The `Highest Slots` branch of `updateLeaderboard`: compensation by
`.map`, then stable sort descending by (adjusted) `value` with ties broken by
ascending `total_latency_ms`. -/
def rankHighestSlots (data : List SlotEntry) : List SlotEntry :=
  (data.map slotAdjust).insertionSort slotR

/-! ### Per-endpoint averages (`fetchData` lines 110-122) -/

/-- Helper for `setDedup`: keep the elements not yet `seen`, in order,
recording each kept element — the insertion behaviour of a JavaScript `Set`. -/
def setDedupAux (seen : List String) : List String → List String
  | [] => []
  | x :: xs => if x ∈ seen then setDedupAux seen xs else x :: setDedupAux (x :: seen) xs

/-- Model of `[...new Set(xs)]`: deduplication keeping the first occurrence,
as a JavaScript `Set` does. -/
def setDedup (l : List String) : List String :=
  setDedupAux [] l

/-- Lexicographic comparison of character sequences: the order the default
(comparator-less) `Array.prototype.sort()` applies to strings, which compares
code-unit sequences — identical to code-point order on the basic plane. -/
def charListLE : List Char → List Char → Bool
  | [], _ => true
  | _ :: _, [] => false
  | a :: as, b :: bs => if a < b then true else if b < a then false else charListLE as bs

/-- The string order of the `nicknames` sort. -/
def strR (a b : String) : Prop := charListLE a.data b.data = true

instance : DecidableRel strR := fun _ _ => inferInstanceAs (Decidable (_ = _))

/-- Model of `[...new Set(data.map(item => item.nickname))].sort()`: the
distinct nicknames of the batch in (string) sorted order. -/
def sortedNicknames (data : List Sample) : List String :=
  (setDedup (data.map (·.nickname))).insertionSort strR

/-- The order of the `avgResponseTimes.sort((a, b) => a.averageLatency -
b.averageLatency)` call. -/
def avgR (a b : AvgEntry) : Prop := a.averageLatency ≤ b.averageLatency

instance : DecidableRel avgR := fun _ _ => inferInstanceAs (Decidable (_ ≤ _))

instance : IsTotal AvgEntry avgR := ⟨fun a b => le_total a.averageLatency b.averageLatency⟩

instance : IsTrans AvgEntry avgR := ⟨fun _ _ _ h h' => le_trans h h'⟩

/-- The average-response-time construction of `fetchData`, over an already
computed nickname list (the caller computes `sortedNicknames` once and reuses
it for the chart datasets and the legend). -/
def avgResponseTimesOf (nicknames : List String) (data : List Sample) : List AvgEntry :=
  let unsorted := nicknames.map (fun nickname =>
    let endpointData := data.filter (fun item => item.nickname = nickname)
    let totalLatency : Int := endpointData.foldl (fun sum item => sum + item.total_latency_ms) 0
    let avgLatency : ℚ :=
      if endpointData.length > 0 then (totalLatency : ℚ) / (endpointData.length : ℚ) else 0
    { nickname := nickname, averageLatency := avgLatency })
  unsorted.insertionSort avgR

/-- The full derived `Average Response Times` ranking, as a function of the
raw sample batch (grouping key list = sorted distinct nicknames). -/
def averageLatencyPerEndpoint (data : List Sample) : List AvgEntry :=
  avgResponseTimesOf (sortedNicknames data) data

/-! ### Leaderboard rendering loop (`data.forEach` in `updateLeaderboard`) -/

/-- The `previousValues` object: cache key (a string `elementId + index`) to
last rendered `entry.value`; an absent key reads as `undefined = none`. -/
abbrev Cache := String → Option Int

/-- One pass of the render loop from index `index` on: per entry, the key is
`elementId + index`, the `new-record` flag is
`previousValues[key] !== entry.value` (JavaScript strict inequality, under
which `undefined !== undefined` is `false`), and the cache is updated with
`previousValues[key] = entry.value` before the next row. -/
def renderBoardAux {α : Type} (elementId : String) (value : α → Option Int) :
    Nat → Cache → List α → List (Bool × α) × Cache
  | _, pv, [] => ([], pv)
  | index, pv, entry :: rest =>
    let key := elementId ++ toString index
    let isNewRecord : Bool := pv key ≠ value entry
    let pv1 : Cache := fun k => if k = key then value entry else pv k
    let r := renderBoardAux elementId value (index + 1) pv1 rest
    ((isNewRecord, entry) :: r.1, r.2)

/-- The render loop of `updateLeaderboard` over already-sorted data, yielding
the rendered rows (flag, entry) and the updated `previousValues`. -/
def renderBoard {α : Type} (elementId : String) (value : α → Option Int)
    (pv : Cache) (data : List α) : List (Bool × α) × Cache :=
  renderBoardAux elementId value 0 pv data

/-! ### Chart datasets, color map, y axis (`fetchData` lines 131-194, 72-77) -/

/-- Model of `data.filter(item => item.nickname === nickname).map(...)`. -/
def pointsFor (data : List Sample) (nickname : String) : List Point :=
  (data.filter (fun item => item.nickname = nickname)).map
    (fun item => { x := item.timestamp, y := item.latency_ms })

/-- The `nicknames.map((nickname, index) => ...)` loop building the datasets:
threads the session `nicknameColorMap` (writing
`colors[index % colors.length]` only when the nickname has no color yet — the
palette strings are truthy, so the `!nicknameColorMap[nickname]` test is
exactly absence) and reads `hiddenDatasets[nickname] || false`. -/
def buildDatasetsAux (data : List Sample) (hiddenDatasets : String → Bool) :
    Nat → (String → Option String) → List String →
    (String → Option String) × List Dataset
  | _, cmap, [] => (cmap, [])
  | index, cmap, nickname :: rest =>
    let cmap1 : String → Option String :=
      match cmap nickname with
      | none => fun k =>
          if k = nickname then some (colors.getD (index % colors.length) "") else cmap k
      | some _ => cmap
    let color := (cmap1 nickname).getD ""
    let ds : Dataset :=
      { label := nickname, data := pointsFor data nickname,
        borderColor := color, hidden := hiddenDatasets nickname }
    let r := buildDatasetsAux data hiddenDatasets (index + 1) cmap1 rest
    (r.1, ds :: r.2)

/-- Model of `Math.max(...ds.flatMap(ds2 => ds2.data.map(point => point.y)))`;
`none` models the empty case (`-Infinity`). -/
def maxLatencyOf (ds : List Dataset) : Option Int :=
  (ds.flatMap (fun dataset => dataset.data.map (fun point => point.y))).max?

/-- Model of `updateYAxisMax`: the bound becomes `1.1 ×` the maximum `y` over the
points of the datasets that are not hidden. -/
def updateYAxisMax (c : Chart) : Chart :=
  let visibleDatasets := c.datasets.filter (fun dataset => !dataset.hidden)
  { c with yMax := (maxLatencyOf visibleDatasets).map (fun m => (m : ℚ) * (11 / 10)) }

/-- The in-place `dataset.hidden = !dataset.hidden` on the first dataset whose
`label` matches (labels are distinct nicknames, so at most one matches). -/
def flipFirst (nickname : String) : List Dataset → List Dataset
  | [] => []
  | ds :: rest =>
    if ds.label = nickname then { ds with hidden := !ds.hidden } :: rest
    else ds :: flipFirst nickname rest

/-- The legend click handler for `nickname`: find the dataset, flip its
`hidden` flag, record the new flag in `hiddenDatasets`, recompute the y-axis
bound.  `none` models the `TypeError` the handler would throw (before any
state change) when no dataset matches. -/
def legendToggle (c : Chart) (hiddenDatasets : String → Bool) (nickname : String) :
    Option (Chart × (String → Bool)) :=
  match c.datasets.find? (fun ds => ds.label = nickname) with
  | none => none
  | some ds =>
    let newHidden := !ds.hidden
    let c1 := updateYAxisMax { c with datasets := flipFirst nickname c.datasets }
    some (c1, fun k => if k = nickname then newHidden else hiddenDatasets k)

/-! ### The refresh cycle (`fetchData`) and session state -/

/-- The consensus summary.  Only `latency_leaderboard` is read by modelled
state; the scalar summary fields feed `updateWithFade` text targets, which
are cosmetic and read back by nothing. -/
structure Consensus where
  latency_leaderboard : List LBEntry

/-- A successfully fetched and JSON-decoded response `[data, consensus]`. -/
structure Fetched where
  data : List Sample
  consensus : Consensus

/-- The `status` element text: initial page text, `Last updated: <time>`
(timestamp suppressed — the wall clock is not modelled), or the error text. -/
inductive StatusLine where
  | initial
  | lastUpdated
  | errorUpdating
deriving DecidableEq, Repr

/-- The module-scoped mutable state of the script that the refresh cycle and
the legend handlers read or write. -/
structure DashState where
  /-- The in-flight re-entrancy guard `updating`. -/
  updating : Bool
  /-- The `requestCount` counter, incremented per guarded refresh attempt. -/
  requestCount : Nat
  /-- Whether `updateIndicator` carries the `updating` CSS class. -/
  indicatorUpdating : Bool
  /-- The `previousValues` cache of the leaderboard renderer. -/
  previousValues : Cache
  /-- The session `nicknameColorMap` (absent entry = `undefined`). -/
  nicknameColorMap : String → Option String
  /-- The `hiddenDatasets` object; the script only ever reads it as
  `hiddenDatasets[nickname] || false`, so absent and `false` coincide. -/
  hiddenDatasets : String → Bool
  /-- The `responseTimeChart` object (`none` before the first successful refresh). -/
  chart : Option Chart
  /-- The `status` line. -/
  status : StatusLine
  /-- The rendered rows of the `latencyLeaderboard` element
  (`new-record` flag, entry). -/
  fastBoard : List (Bool × LBEntry)
  /-- The rendered rows of the `slotLeaderboard` element, which the script
  fills with the Average Response Times entries. -/
  avgBoard : List (Bool × AvgEntry)

/-- One call to `fetchData`, parameterised by the outcome of the awaited
network round trip: `none` for any thrown error (fetch rejection, JSON
failure, …), `some f` for a decoded response.  Returns the new state and the
number of network requests the call issued. -/
def fetchData (s : DashState) (result : Option Fetched) : DashState × Nat :=
  if s.updating then (s, 0)
  else
    let s1 : DashState :=
      { s with updating := true, requestCount := s.requestCount + 1,
               indicatorUpdating := true }
    match result with
    | none =>
      -- catch: status error text; finally: guard and indicator cleared
      ({ s1 with status := .errorUpdating,
                 updating := false, indicatorUpdating := false }, 1)
    | some f =>
      -- the seven updateWithFade calls touch cosmetic text only
      let fastRanked := rankFastest f.consensus.latency_leaderboard
      let fastRender := renderBoard "latencyLeaderboard" (fun e => e.value)
        s1.previousValues fastRanked
      let nicknames := sortedNicknames f.data
      let avgResponseTimes := avgResponseTimesOf nicknames f.data
      -- AvgEntry has no `value` field: `entry.value` is `undefined`
      let avgRender := renderBoard "slotLeaderboard" (fun _ => none)
        fastRender.2 avgResponseTimes
      let built := buildDatasetsAux f.data s1.hiddenDatasets 0 s1.nicknameColorMap nicknames
      let chart : Chart :=
        match s1.chart with
        | some c => { c with datasets := built.2 }  -- y-axis max left as is
        | none =>
          { datasets := built.2,
            yMax := (maxLatencyOf built.2).map (fun m => (m : ℚ) * (11 / 10)) }
      ({ s1 with previousValues := avgRender.2,
                 nicknameColorMap := built.1,
                 chart := some chart,
                 status := .lastUpdated,
                 fastBoard := fastRender.1,
                 avgBoard := avgRender.1,
                 updating := false, indicatorUpdating := false }, 1)

/-- A user-visible session event: one `fetchData` call (triggered by the
interval timer or the initial load) with its network outcome, or one legend
click. -/
inductive Event where
  | fetch (result : Option Fetched)
  | legendClick (nickname : String)

/-- One session step.  A legend click can only happen once the chart exists
(the legend is built after chart creation); clicking a nickname with no
matching dataset would throw before any state change, so both cases leave the
state unchanged. -/
def step (s : DashState) : Event → DashState
  | .fetch r => (fetchData s r).1
  | .legendClick nickname =>
    match s.chart with
    | none => s
    | some c =>
      match legendToggle c s.hiddenDatasets nickname with
      | none => s
      | some r => { s with chart := some r.1, hiddenDatasets := r.2 }

/-- A whole session: the initial module state evolved by a list of events. -/
def runSession (s : DashState) (evs : List Event) : DashState :=
  evs.foldl step s

/-- The module-scoped state right after script load: guard down, empty
caches and maps, no chart. -/
def initState : DashState :=
  { updating := false, requestCount := 0, indicatorUpdating := false,
    previousValues := fun _ => none, nicknameColorMap := fun _ => none,
    hiddenDatasets := fun _ => false, chart := none, status := .initial,
    fastBoard := [], avgBoard := [] }

/-! ### Aliasing facts of the ranking calls (for the purity claim)

`Array.prototype.sort` sorts in place.  In the `Fastest Response Times`
branch `updateLeaderboard` calls `data.sort(...)` directly on the array the
caller passed in (`consensus.latency_leaderboard`), so after the call the
caller's array holds the sorted order.  In the `Highest Slots` branch `data`
is rebound first (`data = data.map(...)` allocates a fresh array) and the
sort runs on the fresh array, so the caller's array is untouched.  The
average computation reads its sample array only through `map`, `filter` and
`reduce` (all allocating) and sorts only the locally built `avgResponseTimes`
array. -/

/-- Contents of the caller's entry array after the `Fastest Response Times`
branch of `updateLeaderboard` ran on it: sorted in place. -/
def fastestInputArrayAfterCall (l : List LBEntry) : List LBEntry :=
  rankFastest l

/-- Contents of the caller's entry array after the `Highest Slots` branch of
`updateLeaderboard` ran on it: untouched (the branch rebinds `data`). -/
def highestSlotsInputArrayAfterCall (l : List SlotEntry) : List SlotEntry :=
  l

/-- Contents of the caller's sample array after the average-per-endpoint
computation ran on it: untouched. -/
def averageInputSamplesAfterCall (l : List Sample) : List Sample :=
  l

/-! ### Concrete instances used in witnesses and counterexamples -/

/-- A state whose re-entrancy guard is held. -/
def busyState : DashState := { initState with updating := true }

/-- A one-sample fetched response. -/
def fetchedM : Fetched :=
  { data := [{ nickname := "M", timestamp := 3, latency_ms := 40, total_latency_ms := 45 }],
    consensus := { latency_leaderboard := [] } }

def fastA : LBEntry :=
  { nickname := "A", value := some 7, latency_ms := some 5, total_latency_ms := 9, timestamp := none }

def fastB : LBEntry :=
  { nickname := "B", value := some 8, latency_ms := some 3, total_latency_ms := 9, timestamp := none }

/-- Same effective sort key as `fastB` (3), through the fallback field. -/
def fastC : LBEntry :=
  { nickname := "C", value := some 9, latency_ms := none, total_latency_ms := 3, timestamp := none }

/-- The slot entry `A` of the spec's end-to-end slot scenario. -/
def slotA : SlotEntry := { nickname := "A", value := 10, latency_ms := 250, total_latency_ms := 300 }

/-- The slot entry `B` of the spec's end-to-end slot scenario. -/
def slotB : SlotEntry := { nickname := "B", value := 9, latency_ms := 100, total_latency_ms := 50 }

/-- Entry `slotA` after the compensation step. -/
def slotAComp : SlotEntry := { nickname := "A", value := 9, latency_ms := 250, total_latency_ms := 300 }

/-- A chart as it stands after an earlier refresh: one series, bound `110`. -/
def chartC5 : Chart :=
  { datasets := [{ label := "M", data := [{ x := 0, y := 100 }],
                   borderColor := "rgba(255, 99, 132, 1)", hidden := false }],
    yMax := some 110 }

def sC5 : DashState := { initState with chart := some chartC5 }

/-- A next batch whose maximum visible latency is `200`. -/
def fC5 : Fetched :=
  { data := [{ nickname := "M", timestamp := 1, latency_ms := 200, total_latency_ms := 200 }],
    consensus := { latency_leaderboard := [] } }

def sC5after : DashState := (fetchData sC5 (some fC5)).1

/-- The chart `fetchData` leaves behind on `sC5`/`fC5`: fresh points, and the
stale bound `110` (`1.1 ×` the new visible maximum would be `220`). -/
def chartC5after : Chart :=
  { datasets := [{ label := "M", data := [{ x := 1, y := 200 }],
                   borderColor := "rgba(255, 99, 132, 1)", hidden := false }],
    yMax := some 110 }

/-- A chart with a visible series peaking at `100` and a hidden series peaking
at `1000` (the spec's axis-rescale example). -/
def chartVH : Chart :=
  { datasets := [{ label := "V", data := [{ x := 0, y := 100 }], borderColor := "", hidden := false },
                 { label := "H", data := [{ x := 0, y := 1000 }], borderColor := "", hidden := true }],
    yMax := none }

/-- The visible dataset of `chartVH`. -/
def dsV : Dataset := { label := "V", data := [{ x := 0, y := 100 }], borderColor := "", hidden := false }

def chartC6 : Chart := { datasets := [], yMax := some 5 }

/-- A state in which the user has toggled `Mainnet` hidden (and a chart
exists, as it must for a legend click to have happened). -/
def sC6 : DashState :=
  { initState with chart := some chartC6, hiddenDatasets := fun k => decide (k = "Mainnet") }

/-- A later batch that still contains `Mainnet` samples. -/
def fC6 : Fetched :=
  { data := [{ nickname := "Mainnet", timestamp := 7, latency_ms := 60, total_latency_ms := 66 }],
    consensus := { latency_leaderboard := [] } }

/-- The `Mainnet` dataset built from `fC6` under `sC6`: still hidden. -/
def dsC6 : Dataset :=
  { label := "Mainnet", data := [{ x := 7, y := 60 }],
    borderColor := "rgba(255, 99, 132, 1)", hidden := true }

def chartC6after : Chart := { datasets := [dsC6], yMax := some 5 }

/-- A hidden dataset with a large latency, for the exclusion conjunct. -/
def dsHidden : Dataset := { label := "H", data := [{ x := 0, y := 1000 }], borderColor := "", hidden := true }

/-- A color map in which `B` already has the first palette color. -/
def colorMapB : String → Option String :=
  fun k => if k = "B" then some "rgba(255, 99, 132, 1)" else none

def sC7 : DashState := { initState with nicknameColorMap := colorMapB }

/-- A batch containing `B` (already colored) and the new nickname `A`. -/
def fC7 : Fetched :=
  { data := [{ nickname := "A", timestamp := 0, latency_ms := 1, total_latency_ms := 1 },
             { nickname := "B", timestamp := 0, latency_ms := 2, total_latency_ms := 2 }],
    consensus := { latency_leaderboard := [] } }

/-- First batch of the color-collision scenario: only `B`. -/
def fetchB : Fetched :=
  { data := [{ nickname := "B", timestamp := 0, latency_ms := 10, total_latency_ms := 10 }],
    consensus := { latency_leaderboard := [] } }

/-- Second batch of the color-collision scenario: `A` and `B`. -/
def fetchAB : Fetched :=
  { data := [{ nickname := "A", timestamp := 1, latency_ms := 20, total_latency_ms := 20 },
             { nickname := "B", timestamp := 1, latency_ms := 10, total_latency_ms := 10 }],
    consensus := { latency_leaderboard := [] } }

/-- The session state after fetching `fetchB` then `fetchAB`. -/
def stC8 : DashState := runSession initState [.fetch (some fetchB), .fetch (some fetchAB)]

def fmA : LBEntry :=
  { nickname := "A", value := some 1, latency_ms := some 80, total_latency_ms := 80, timestamp := none }

def fmB : LBEntry :=
  { nickname := "B", value := some 2, latency_ms := some 50, total_latency_ms := 50, timestamp := none }

/-! ### Helper lemmas -/

theorem latencyKey_ne_slotKey (x y : String) :
    ("latencyLeaderboard" ++ x) ≠ ("slotLeaderboard" ++ y) := by
  intro h
  have h1 : ("latencyLeaderboard" ++ x).data.head? = some 'l' := rfl
  rw [h] at h1
  have h2 : ("slotLeaderboard" ++ y).data.head? = some 's' := rfl
  rw [h1] at h2
  exact absurd (Option.some.inj h2) (by decide)

theorem renderBoardAux_untouched {α : Type} (eid : String) (val : α → Option Int) :
    ∀ (l : List α) (idx : Nat) (pv : Cache) (k : String),
      (∀ j : Nat, k ≠ eid ++ toString j) →
      (renderBoardAux eid val idx pv l).2 k = pv k := by
  intro l
  induction l with
  | nil => intro idx pv k _; rfl
  | cons e rest ih =>
    intro idx pv k hk
    simp only [renderBoardAux]
    rw [ih (idx + 1) _ k hk]
    simp [hk idx]

theorem renderBoardAux_none_writes {α : Type} (eid : String) :
    ∀ (l : List α) (idx : Nat) (pv : Cache) (k : String), pv k = none →
      (renderBoardAux eid (fun _ => none) idx pv l).2 k = none := by
  intro l
  induction l with
  | nil => intro idx pv k hk; exact hk
  | cons e rest ih =>
    intro idx pv k hk
    simp only [renderBoardAux]
    apply ih
    by_cases h : k = eid ++ toString idx <;> simp [h, hk]

theorem renderBoardAux_flags_false {α : Type} (eid : String) :
    ∀ (l : List α) (idx : Nat) (pv : Cache),
      (∀ j : Nat, pv (eid ++ toString j) = none) →
      ((renderBoardAux eid (fun _ => none) idx pv l).1).all (fun p => !p.1) = true := by
  intro l
  induction l with
  | nil => intro idx pv _; rfl
  | cons e rest ih =>
    intro idx pv hpv
    simp only [renderBoardAux, List.all_cons]
    rw [Bool.and_eq_true]
    constructor
    · simp [hpv idx]
    · apply ih
      intro j
      by_cases h : eid ++ toString j = eid ++ toString idx <;> simp [h, hpv j]

theorem mem_setDedupAux (a : String) :
    ∀ (l seen : List String), a ∈ setDedupAux seen l ↔ a ∈ l ∧ a ∉ seen := by
  intro l
  induction l with
  | nil => intro seen; simp [setDedupAux]
  | cons x xs ih =>
    intro seen
    simp only [setDedupAux]
    split
    · rename_i hx
      rw [ih seen]
      simp only [List.mem_cons]
      constructor
      · rintro ⟨h1, h2⟩
        exact ⟨Or.inr h1, h2⟩
      · rintro ⟨h1 | h1, h2⟩
        · exact absurd (h1 ▸ hx) h2
        · exact ⟨h1, h2⟩
    · rename_i hx
      simp only [List.mem_cons, ih (x :: seen)]
      constructor
      · rintro (h | ⟨h1, h2⟩)
        · exact ⟨Or.inl h, h ▸ hx⟩
        · exact ⟨Or.inr h1, fun hs => h2 (Or.inr hs)⟩
      · rintro ⟨h1 | h1, h2⟩
        · exact Or.inl h1
        · by_cases hax : a = x
          · exact Or.inl hax
          · exact Or.inr ⟨h1, fun hm => hm.elim hax h2⟩

theorem nodup_setDedupAux :
    ∀ (l seen : List String), (setDedupAux seen l).Nodup := by
  intro l
  induction l with
  | nil => intro seen; exact List.nodup_nil
  | cons x xs ih =>
    intro seen
    simp only [setDedupAux]
    split
    · exact ih seen
    · refine List.Nodup.cons (fun hm => ?_) (ih (x :: seen))
      have := (mem_setDedupAux x xs (x :: seen)).mp hm
      exact this.2 (List.mem_cons_self x seen)

theorem nodup_sortedNicknames (data : List Sample) : (sortedNicknames data).Nodup := by
  unfold sortedNicknames setDedup
  exact ((List.perm_insertionSort strR (setDedupAux [] (data.map (·.nickname)))).symm).nodup
    (nodup_setDedupAux _ [])

theorem buildDatasetsAux_preserve (data : List Sample) (hd : String → Bool)
    (n : String) (col : String) :
    ∀ (ns : List String) (idx : Nat) (cmap : String → Option String),
      cmap n = some col →
      (buildDatasetsAux data hd idx cmap ns).1 n = some col := by
  intro ns
  induction ns with
  | nil => intro idx cmap h; exact h
  | cons x xs ih =>
    intro idx cmap h
    simp only [buildDatasetsAux]
    apply ih
    cases hx : cmap x with
    | none =>
      simp only [hx]
      by_cases hnx : n = x
      · rw [hnx] at h
        rw [h] at hx
        exact absurd hx (by simp)
      · simp [hnx, h]
    | some c => simp [hx, h]

theorem buildDatasetsAux_hidden (data : List Sample) (hd : String → Bool) :
    ∀ (ns : List String) (idx : Nat) (cmap : String → Option String),
      ∀ d ∈ (buildDatasetsAux data hd idx cmap ns).2, d.hidden = hd d.label := by
  intro ns
  induction ns with
  | nil => intro idx cmap d hd'; simp [buildDatasetsAux] at hd'
  | cons x xs ih =>
    intro idx cmap d hmem
    simp only [buildDatasetsAux, List.mem_cons] at hmem
    rcases hmem with h | h
    · rw [h]
    · exact ih (idx + 1) _ d h

theorem buildDatasetsAux_assign (data : List Sample) (hd : String → Bool) (n : String) :
    ∀ (ns : List String) (idx : Nat) (cmap : String → Option String),
      ns.Nodup → cmap n = none → n ∈ ns →
      (buildDatasetsAux data hd idx cmap ns).1 n
        = some (colors.getD ((idx + ns.indexOf n) % colors.length) "") := by
  intro ns
  induction ns with
  | nil => intro idx cmap _ _ hmem; simp at hmem
  | cons x xs ih =>
    intro idx cmap hnd hnone hmem
    simp only [buildDatasetsAux]
    by_cases hnx : n = x
    · subst hnx
      rw [hnone]
      have hw : (fun k => if k = n then some (colors.getD (idx % colors.length) "") else cmap k) n
          = some (colors.getD (idx % colors.length) "") := by simp
      rw [buildDatasetsAux_preserve data hd n _ xs (idx + 1) _ hw]
      simp [List.indexOf_cons_self]
    · have hmem' : n ∈ xs := (List.mem_cons.mp hmem).resolve_left hnx
      have hidx : (x :: xs).indexOf n = xs.indexOf n + 1 :=
        List.indexOf_cons_ne xs (fun h => hnx h.symm)
      rw [hidx]
      have harr : idx + (xs.indexOf n + 1) = (idx + 1) + xs.indexOf n := by omega
      rw [harr]
      cases hx : cmap x with
      | none =>
        simp only [hx]
        exact ih (idx + 1) _ hnd.of_cons (by simp [hnx, hnone]) hmem'
      | some c =>
        simp only [hx]
        exact ih (idx + 1) cmap hnd.of_cons hnone hmem'

theorem fetchData_guard_clear (s : DashState) (r : Option Fetched) (h : s.updating = false) :
    (fetchData s r).1.updating = false ∧ (fetchData s r).1.indicatorUpdating = false := by
  cases r <;> simp [fetchData, h]

theorem fetchData_hidden_const (s : DashState) (r : Option Fetched) :
    (fetchData s r).1.hiddenDatasets = s.hiddenDatasets := by
  by_cases h : s.updating = true
  · simp [fetchData, h]
  · rw [Bool.not_eq_true] at h
    cases r <;> simp [fetchData, h]

theorem fetchData_fail_pv (s : DashState) :
    (fetchData s none).1.previousValues = s.previousValues := by
  by_cases h : s.updating = true
  · simp [fetchData, h]
  · rw [Bool.not_eq_true] at h
    simp [fetchData, h]

theorem fetchData_fail_avgBoard (s : DashState) :
    (fetchData s none).1.avgBoard = s.avgBoard := by
  by_cases h : s.updating = true
  · simp [fetchData, h]
  · rw [Bool.not_eq_true] at h
    simp [fetchData, h]

theorem fetchData_success_pv (s : DashState) (f : Fetched) (h : s.updating = false) :
    (fetchData s (some f)).1.previousValues =
      (renderBoard "slotLeaderboard" (fun _ => none)
        ((renderBoard "latencyLeaderboard" (fun e => e.value) s.previousValues
          (rankFastest f.consensus.latency_leaderboard)).2)
        (avgResponseTimesOf (sortedNicknames f.data) f.data)).2 := by
  simp [fetchData, h]

theorem fetchData_success_avgBoard (s : DashState) (f : Fetched) (h : s.updating = false) :
    (fetchData s (some f)).1.avgBoard =
      (renderBoard "slotLeaderboard" (fun _ => none)
        ((renderBoard "latencyLeaderboard" (fun e => e.value) s.previousValues
          (rankFastest f.consensus.latency_leaderboard)).2)
        (avgResponseTimesOf (sortedNicknames f.data) f.data)).1 := by
  simp [fetchData, h]

theorem fetchData_success_colorMap (s : DashState) (f : Fetched) (h : s.updating = false) :
    (fetchData s (some f)).1.nicknameColorMap =
      (buildDatasetsAux f.data s.hiddenDatasets 0 s.nicknameColorMap (sortedNicknames f.data)).1 := by
  simp [fetchData, h]

theorem fetchData_chart_existing (s : DashState) (f : Fetched) (c : Chart)
    (h : s.updating = false) (hc : s.chart = some c) :
    (fetchData s (some f)).1.chart =
      some { c with datasets :=
        (buildDatasetsAux f.data s.hiddenDatasets 0 s.nicknameColorMap (sortedNicknames f.data)).2 } := by
  simp [fetchData, h, hc]

theorem fetchData_chart_creation (s : DashState) (f : Fetched)
    (h : s.updating = false) (hc : s.chart = none) :
    (fetchData s (some f)).1.chart =
      some { datasets :=
               (buildDatasetsAux f.data s.hiddenDatasets 0 s.nicknameColorMap (sortedNicknames f.data)).2,
             yMax := (maxLatencyOf
               (buildDatasetsAux f.data s.hiddenDatasets 0 s.nicknameColorMap (sortedNicknames f.data)).2).map
               (fun m => (m : ℚ) * (11 / 10)) } := by
  simp [fetchData, h, hc]

theorem fetchData_busy (s : DashState) (r : Option Fetched) (h : s.updating = true) :
    fetchData s r = (s, 0) := by
  simp [fetchData, h]

theorem fetchData_colorMap_preserve (s : DashState) (r : Option Fetched) (n col : String)
    (h : s.nicknameColorMap n = some col) :
    (fetchData s r).1.nicknameColorMap n = some col := by
  by_cases hu : s.updating = true
  · simp [fetchData, hu, h]
  · rw [Bool.not_eq_true] at hu
    cases r with
    | none => simp [fetchData, hu, h]
    | some f =>
      rw [fetchData_success_colorMap s f hu]
      exact buildDatasetsAux_preserve f.data s.hiddenDatasets n col _ 0 _ h

theorem step_legend_pv_avg (s : DashState) (nick : String) :
    (step s (.legendClick nick)).previousValues = s.previousValues
    ∧ (step s (.legendClick nick)).avgBoard = s.avgBoard
    ∧ (step s (.legendClick nick)).nicknameColorMap = s.nicknameColorMap := by
  cases hc : s.chart with
  | none => simp [step, hc]
  | some c =>
    cases ht : legendToggle c s.hiddenDatasets nick with
    | none => simp [step, hc, ht]
    | some out => simp [step, hc, ht]

theorem step_colorMap_preserve (s : DashState) (e : Event) (n col : String)
    (h : s.nicknameColorMap n = some col) :
    (step s e).nicknameColorMap n = some col := by
  cases e with
  | fetch r => exact fetchData_colorMap_preserve s r n col h
  | legendClick nick => rw [(step_legend_pv_avg s nick).2.2]; exact h

theorem fetchData_pv_slot_none (s : DashState) (r : Option Fetched)
    (h1 : ∀ j : Nat, s.previousValues ("slotLeaderboard" ++ toString j) = none) :
    ∀ j : Nat, (fetchData s r).1.previousValues ("slotLeaderboard" ++ toString j) = none := by
  by_cases hu : s.updating = true
  · simp [fetchData, hu]
    exact h1
  · rw [Bool.not_eq_true] at hu
    cases r with
    | none =>
      rw [fetchData_fail_pv]
      exact h1
    | some f =>
      intro j
      rw [fetchData_success_pv s f hu]
      unfold renderBoard
      apply renderBoardAux_none_writes
      rw [renderBoardAux_untouched "latencyLeaderboard" (fun e : LBEntry => e.value)
        (rankFastest f.consensus.latency_leaderboard) 0 s.previousValues
        ("slotLeaderboard" ++ toString j)
        (fun j2 => (latencyKey_ne_slotKey (toString j2) (toString j)).symm)]
      exact h1 j

theorem fetchData_avg_all_false (s : DashState) (f : Fetched) (hu : s.updating = false)
    (h1 : ∀ j : Nat, s.previousValues ("slotLeaderboard" ++ toString j) = none) :
    ((fetchData s (some f)).1.avgBoard).all (fun p => !p.1) = true := by
  rw [fetchData_success_avgBoard s f hu]
  unfold renderBoard
  apply renderBoardAux_flags_false
  intro j
  rw [renderBoardAux_untouched "latencyLeaderboard" (fun e : LBEntry => e.value)
    (rankFastest f.consensus.latency_leaderboard) 0 s.previousValues
    ("slotLeaderboard" ++ toString j)
    (fun j2 => (latencyKey_ne_slotKey (toString j2) (toString j)).symm)]
  exact h1 j

theorem session_inv (evs : List Event) :
    ∀ s : DashState,
      (∀ j : Nat, s.previousValues ("slotLeaderboard" ++ toString j) = none) →
      (s.avgBoard).all (fun p => !p.1) = true →
      (∀ j : Nat, (runSession s evs).previousValues ("slotLeaderboard" ++ toString j) = none)
      ∧ ((runSession s evs).avgBoard).all (fun p => !p.1) = true := by
  induction evs with
  | nil => exact fun s h1 h2 => ⟨h1, h2⟩
  | cons e rest ih =>
    intro s h1 h2
    have hstep : runSession s (e :: rest) = runSession (step s e) rest := rfl
    rw [hstep]
    apply ih
    · cases e with
      | fetch r => exact fetchData_pv_slot_none s r h1
      | legendClick nick =>
        rw [(step_legend_pv_avg s nick).1]
        exact h1
    · cases e with
      | fetch r =>
        cases r with
        | none =>
          show ((fetchData s none).1.avgBoard).all (fun p => !p.1) = true
          rw [fetchData_fail_avgBoard]
          exact h2
        | some f =>
          by_cases hu : s.updating = true
          · show ((fetchData s (some f)).1.avgBoard).all (fun p => !p.1) = true
            rw [fetchData_busy s (some f) hu]
            exact h2
          · rw [Bool.not_eq_true] at hu
            exact fetchData_avg_all_false s f hu h1
      | legendClick nick =>
        rw [(step_legend_pv_avg s nick).2.1]
        exact h2

/-! ### The claims -/

/-- C1: a call to `fetchData` made while a refresh is already in flight (the
`updating` flag is set) has no observable effect: the whole dashboard state —
request-rate counter, leaderboards, chart, previous-value cache, status line —
is returned unchanged, and no network request is issued (second component 0). -/
theorem C1_reentrant_fetch_is_noop (s : DashState) (r : Option Fetched)
    (h : s.updating = true) : fetchData s r = (s, 0) :=
  fetchData_busy s r h

/-- C1 witness: on a concrete in-flight state the call returns the state
unchanged and issues no request. -/
theorem C1_reentrant_fetch_is_noop_witness :
    busyState.updating = true ∧ fetchData busyState none = (busyState, 0) :=
  ⟨rfl, C1_reentrant_fetch_is_noop busyState none rfl⟩

/-- C2: every `fetchData` call that passes the re-entrancy guard leaves the
guard cleared and the busy indicator off, on the success path and on the
caught-error path alike. -/
theorem C2_guard_cleared_on_all_paths (s : DashState) (r : Option Fetched)
    (h : s.updating = false) :
    (fetchData s r).1.updating = false ∧ (fetchData s r).1.indicatorUpdating = false :=
  fetchData_guard_clear s r h

/-- C2 witness: concrete failure and success calls, both ending with the
guard and the indicator cleared. -/
theorem C2_guard_cleared_on_all_paths_witness :
    initState.updating = false
    ∧ ((fetchData initState none).1.updating = false
        ∧ (fetchData initState none).1.indicatorUpdating = false)
    ∧ ((fetchData initState (some fetchedM)).1.updating = false
        ∧ (fetchData initState (some fetchedM)).1.indicatorUpdating = false) :=
  ⟨rfl, C2_guard_cleared_on_all_paths initState none rfl,
   C2_guard_cleared_on_all_paths initState (some fetchedM) rfl⟩

/-- C3: the Fastest Response Times ranking returns the input entries
(permutation), ordered non-decreasingly in `latency_ms`-else-`total_latency_ms`,
and entries with equal keys keep their relative input order (stability). -/
theorem C3_rankFastest_sorted_stable (l : List LBEntry) :
    (rankFastest l).Perm l
    ∧ (rankFastest l).Pairwise (fun a b => fastKey a ≤ fastKey b)
    ∧ (∀ a b : LBEntry, fastKey a = fastKey b →
        List.Sublist [a, b] l → List.Sublist [a, b] (rankFastest l)) := by
  refine ⟨List.perm_insertionSort fastR l, List.sorted_insertionSort fastR l, ?_⟩
  intro a b hk hsub
  exact List.pair_sublist_insertionSort (le_of_eq hk : fastR a b) hsub

/-- C3 witness: a concrete list whose last two entries share the key 3 (one
through the fallback field); they stay in input order in the output. -/
theorem C3_rankFastest_sorted_stable_witness :
    (rankFastest [fastA, fastB, fastC]).Perm [fastA, fastB, fastC]
    ∧ (rankFastest [fastA, fastB, fastC]).Pairwise (fun a b => fastKey a ≤ fastKey b)
    ∧ fastKey fastB = fastKey fastC
    ∧ List.Sublist [fastB, fastC] (rankFastest [fastA, fastB, fastC]) :=
  ⟨(C3_rankFastest_sorted_stable [fastA, fastB, fastC]).1,
   (C3_rankFastest_sorted_stable [fastA, fastB, fastC]).2.1,
   by decide,
   (C3_rankFastest_sorted_stable [fastA, fastB, fastC]).2.2 fastB fastC (by decide)
     (List.Sublist.cons fastA (List.Sublist.refl [fastB, fastC]))⟩

/-- C4: the Highest Slots ranking first decrements `value` exactly for the
entries with `latency_ms > 200` (the `map slotAdjust`), then orders them by
adjusted `value` descending with ties on equal adjusted `value` broken by
ascending `total_latency_ms`; on the spec's example input the result is
`[B, A-compensated]`. -/
theorem C4_rankHighestSlots_order (l : List SlotEntry) :
    (rankHighestSlots l).Perm (l.map slotAdjust)
    ∧ (rankHighestSlots l).Pairwise
        (fun a b => b.value < a.value
          ∨ (a.value = b.value ∧ a.total_latency_ms ≤ b.total_latency_ms))
    ∧ rankHighestSlots [slotA, slotB] = [slotB, slotAComp] := by
  refine ⟨List.perm_insertionSort slotR (l.map slotAdjust), ?_, by decide⟩
  refine (List.sorted_insertionSort slotR (l.map slotAdjust)).imp ?_
  intro a b hab
  unfold slotR at hab
  split at hab
  · rename_i hv
    exact Or.inr ⟨hv.symm, hab⟩
  · rename_i hv
    exact Or.inl (lt_of_le_of_ne hab hv)

/-- C5 counterexample: with a chart already on screen (bound 110), applying a
fresh batch whose visible maximum is 200 leaves the bound at the stale 110;
the claimed recomputation would give `1.1 × 200 = 220`. -/
theorem C5_no_recompute_on_batch_cex :
    sC5after.chart = some chartC5after
    ∧ chartC5after.yMax = some 110
    ∧ (updateYAxisMax chartC5after).yMax = some 220
    ∧ (some (110 : ℚ) : Option ℚ) ≠ some (220 : ℚ) := by
  refine ⟨by decide, rfl, ?_, by norm_num⟩
  simp [updateYAxisMax, chartC5after, maxLatencyOf]
  norm_num

/-- C5 (amended): `updateYAxisMax` computes `1.1 ×` the maximum latency over
the currently visible (non-hidden) series only — visible max 100 with a
hidden series at 1000 gives 110, not 1100 — and it runs after every
visibility toggle; however a batch application recomputes nothing when the
chart already exists (the stale bound survives), and at initial chart
creation the bound is `1.1 ×` the maximum over all datasets of the batch
(hidden ones included). -/
theorem C5_yAxis_amended :
    ((updateYAxisMax chartVH).yMax = some 110)
    ∧ (∀ (c : Chart) (hd : String → Bool) (n : String) (ds : Dataset),
        c.datasets.find? (fun d => d.label = n) = some ds →
        (legendToggle c hd n).map (fun out => out.1.yMax)
          = some ((maxLatencyOf ((flipFirst n c.datasets).filter (fun d => !d.hidden))).map
              (fun m => (m : ℚ) * (11 / 10))))
    ∧ (∀ (s : DashState) (f : Fetched) (c : Chart), s.updating = false → s.chart = some c →
        ((fetchData s (some f)).1.chart).map (fun ch => ch.yMax) = some c.yMax)
    ∧ (∀ (s : DashState) (f : Fetched), s.updating = false → s.chart = none →
        ((fetchData s (some f)).1.chart).map (fun ch => ch.yMax)
          = some ((maxLatencyOf
              (buildDatasetsAux f.data s.hiddenDatasets 0 s.nicknameColorMap
                (sortedNicknames f.data)).2).map (fun m => (m : ℚ) * (11 / 10)))) := by
  refine ⟨?_, ?_, ?_, ?_⟩
  · simp [updateYAxisMax, chartVH, maxLatencyOf]
    norm_num
  · intro c hd n ds hfind
    simp [legendToggle, hfind, updateYAxisMax]
  · intro s f c h hc
    rw [fetchData_chart_existing s f c h hc]
    rfl
  · intro s f h hc
    rw [fetchData_chart_creation s f h hc]
    rfl

/-- C5 witness: the toggle-recompute, existing-chart, and creation conjuncts
applied at concrete inputs. -/
theorem C5_yAxis_amended_witness :
    (chartVH.datasets.find? (fun d => d.label = "V") = some dsV)
    ∧ ((legendToggle chartVH (fun _ => false) "V").map (fun out => out.1.yMax)
        = some ((maxLatencyOf ((flipFirst "V" chartVH.datasets).filter (fun d => !d.hidden))).map
            (fun m => (m : ℚ) * (11 / 10))))
    ∧ sC5.updating = false
    ∧ sC5.chart = some chartC5
    ∧ ((fetchData sC5 (some fC5)).1.chart).map (fun ch => ch.yMax) = some chartC5.yMax
    ∧ initState.chart = none
    ∧ ((fetchData initState (some fC5)).1.chart).map (fun ch => ch.yMax)
        = some ((maxLatencyOf
            (buildDatasetsAux fC5.data initState.hiddenDatasets 0 initState.nicknameColorMap
              (sortedNicknames fC5.data)).2).map (fun m => (m : ℚ) * (11 / 10))) :=
  ⟨by decide,
   C5_yAxis_amended.2.1 chartVH (fun _ => false) "V" dsV (by decide),
   rfl, rfl,
   C5_yAxis_amended.2.2.1 sC5 fC5 chartC5 rfl rfl,
   rfl,
   C5_yAxis_amended.2.2.2 initState fC5 rfl rfl⟩

/-- C6: a series' hidden flag, once set, is carried verbatim into every
dataset a later batch builds for that nickname (`fetchData` reads it from
`hiddenDatasets` and never writes that map), a key never seen defaults to
visible, and a hidden dataset contributes nothing to the visible y-axis
maximum. -/
theorem C6_hidden_persists :
    (∀ (s : DashState) (f : Fetched) (c : Chart), s.updating = false →
        (fetchData s (some f)).1.chart = some c →
        ∀ d ∈ c.datasets, d.hidden = s.hiddenDatasets d.label)
    ∧ (∀ (s : DashState) (r : Option Fetched),
        (fetchData s r).1.hiddenDatasets = s.hiddenDatasets)
    ∧ (∀ n : String, initState.hiddenDatasets n = false)
    ∧ (∀ (ds₁ ds₂ : List Dataset) (d : Dataset) (y : Option ℚ), d.hidden = true →
        (updateYAxisMax { datasets := ds₁ ++ d :: ds₂, yMax := y }).yMax
          = (updateYAxisMax { datasets := ds₁ ++ ds₂, yMax := y }).yMax) := by
  refine ⟨?_, fetchData_hidden_const, fun _ => rfl, ?_⟩
  · intro s f c h hc d hd
    cases hsc : s.chart with
    | some c0 =>
      rw [fetchData_chart_existing s f c0 h hsc] at hc
      have hceq := Option.some.inj hc
      rw [← hceq] at hd
      exact buildDatasetsAux_hidden f.data s.hiddenDatasets (sortedNicknames f.data) 0
        s.nicknameColorMap d hd
    | none =>
      rw [fetchData_chart_creation s f h hsc] at hc
      have hceq := Option.some.inj hc
      rw [← hceq] at hd
      exact buildDatasetsAux_hidden f.data s.hiddenDatasets (sortedNicknames f.data) 0
        s.nicknameColorMap d hd
  · intro ds₁ ds₂ d y hdd
    simp [updateYAxisMax, maxLatencyOf, List.filter_append, List.filter_cons, hdd]

/-- C6 witness: `Mainnet` toggled hidden, a later batch still containing
`Mainnet` samples yields a dataset still hidden; a fresh key is visible; a
hidden dataset is excluded from the axis maximum. -/
theorem C6_hidden_persists_witness :
    sC6.updating = false
    ∧ (fetchData sC6 (some fC6)).1.chart = some chartC6after
    ∧ dsC6 ∈ chartC6after.datasets
    ∧ dsC6.hidden = sC6.hiddenDatasets dsC6.label
    ∧ (fetchData sC6 (some fC6)).1.hiddenDatasets = sC6.hiddenDatasets
    ∧ initState.hiddenDatasets "Devnet" = false
    ∧ dsHidden.hidden = true
    ∧ (updateYAxisMax { datasets := [dsV] ++ dsHidden :: [], yMax := none }).yMax
        = (updateYAxisMax { datasets := [dsV] ++ [], yMax := none }).yMax :=
  ⟨rfl, by decide, by decide,
   C6_hidden_persists.1 sC6 fC6 chartC6after rfl (by decide) dsC6 (by decide),
   C6_hidden_persists.2.1 sC6 (some fC6),
   C6_hidden_persists.2.2.1 "Devnet",
   rfl,
   C6_hidden_persists.2.2.2 [dsV] [] dsHidden none rfl⟩

/-- C7: once a nickname has a color in the session color map, every later
lookup — across any sequence of refreshes (successful or failed) and legend
clicks — returns exactly that color: the map entry is never overwritten. -/
theorem C7_color_assigned_once (evs : List Event) (s : DashState) (n col : String)
    (h : s.nicknameColorMap n = some col) :
    (runSession s evs).nicknameColorMap n = some col := by
  induction evs generalizing s with
  | nil => exact h
  | cons e rest ih => exact ih (step s e) (step_colorMap_preserve s e n col h)

/-- C7 witness: `B` colored in the starting state keeps its color through a
successful refresh, a failed refresh and a legend click. -/
theorem C7_color_assigned_once_witness :
    sC7.nicknameColorMap "B" = some "rgba(255, 99, 132, 1)"
    ∧ (runSession sC7 [.fetch (some fC7), .fetch none, .legendClick "B"]).nicknameColorMap "B"
        = some "rgba(255, 99, 132, 1)" :=
  ⟨by decide,
   C7_color_assigned_once [.fetch (some fC7), .fetch none, .legendClick "B"] sC7 "B"
     "rgba(255, 99, 132, 1)" (by decide)⟩

/-- C8 counterexample: fetch the batches `[B]` then `[A, B]` from a fresh
session.  `B` is the first distinct nickname seen and `A` the second, yet `A`
receives palette color 0 (its index in the second batch's sorted nickname
list), the same color as `B` — not palette color `1 mod 6` as claimed, and
two of the first six distinct nicknames share a color. -/
theorem C8_kth_nickname_color_cex :
    stC8.nicknameColorMap "B" = some "rgba(255, 99, 132, 1)"
    ∧ stC8.nicknameColorMap "A" = some "rgba(255, 99, 132, 1)"
    ∧ ("A" : String) ≠ "B"
    ∧ colors.getD (1 % colors.length) "" ≠ "rgba(255, 99, 132, 1)" :=
  ⟨by decide, by decide, by decide, by decide⟩

/-- C8 (amended): a nickname with no color yet is assigned
`colors[(i mod 6)]` where `i` is its index in the sorted distinct-nickname
list of the batch in which it first appears — not its session-wide first-seen
rank; nicknames first seen in different batches can therefore collide even
among the first six. -/
theorem C8_color_by_batch_index (s : DashState) (f : Fetched) (n : String)
    (h1 : s.updating = false) (h2 : s.nicknameColorMap n = none)
    (h3 : n ∈ sortedNicknames f.data) :
    (fetchData s (some f)).1.nicknameColorMap n
      = some (colors.getD ((sortedNicknames f.data).indexOf n % colors.length) "") := by
  rw [fetchData_success_colorMap s f h1]
  have h := buildDatasetsAux_assign f.data s.hiddenDatasets n (sortedNicknames f.data) 0
    s.nicknameColorMap (nodup_sortedNicknames f.data) h2 h3
  simpa using h

/-- C8 amended witness: in a fresh session fetching `[A, B]`, nickname `A`
gets the palette color at its sorted-batch index. -/
theorem C8_color_by_batch_index_witness :
    initState.updating = false
    ∧ initState.nicknameColorMap "A" = none
    ∧ "A" ∈ sortedNicknames fetchAB.data
    ∧ (fetchData initState (some fetchAB)).1.nicknameColorMap "A"
        = some (colors.getD ((sortedNicknames fetchAB.data).indexOf "A" % colors.length) "") :=
  ⟨rfl, rfl, by decide,
   C8_color_by_batch_index initState fetchAB "A" rfl rfl (by decide)⟩

/-- C9 counterexample: the Fastest Response Times branch sorts the caller's
array in place (`data.sort` on the passed array), so after the call on
`[A (latency 80), B (latency 50)]` the caller's array reads `[B, A]` — the
input entry list is not unchanged. -/
theorem C9_fastest_mutates_input_cex :
    fastestInputArrayAfterCall [fmA, fmB] ≠ [fmA, fmB] := by
  decide

/-- C9 (amended): the three ranking/aggregation computations are
deterministic and never mutate the individual entry or sample records; the
Highest Slots branch and the average computation leave the caller's arrays
unchanged, but the Fastest branch reorders its input array in place (the
output is a permutation of it — the records themselves survive intact). -/
theorem C9_purity_amended (l : List SlotEntry) (l' : List LBEntry) (ls : List Sample) :
    highestSlotsInputArrayAfterCall l = l
    ∧ averageInputSamplesAfterCall ls = ls
    ∧ (fastestInputArrayAfterCall l').Perm l' :=
  ⟨rfl, rfl, List.perm_insertionSort fastR l'⟩

/-- C10: on the Average Response Times board the `new-record` flag is false
for every row on every render of any session: its entries carry no `value`
field, so the cache comparison is `undefined !== undefined` on the first and
every following render. -/
theorem C10_avg_flag_never_set (evs : List Event) :
    ((runSession initState evs).avgBoard).all (fun p => !p.1) = true :=
  (session_inv evs initState (fun _ => rfl) rfl).2

end RPCMonitor
